import Mathlib

/-!
Verification of the ticket-triage pipeline (src/app/main.py).

The pipeline threads a single `TriageState` record through four stages
(ingest, classify_issue, fetch_order, draft_reply).  Stages that can raise a
`ValueError` are embedded as functions into `Except String TriageState`,
carrying the exact Python error message; stages that cannot fail are total
functions.  The three lookup tables (orders, issue-keyword rules, reply
templates) live in mock_data/*.json outside the core sources, so the node
functions take them as explicit read-only parameters, and concrete default
tables are modelled from the spec where needed for concrete runs.

Python-specific behaviours are embedded explicitly:
- optional string fields are `Option String`; Python truthiness on them
  (`if not order_id`) is `strFalsy` (absent or empty string);
- `str.replace` (replace all non-overlapping occurrences, left to right) is
  `replaceAll` over `List Char` (the Python empty-pattern special case is
  never exercised: all patterns in the source are non-empty literals);
- `re.search(r"(ORD\d{4})", text, re.IGNORECASE)` is `scanOrd`, which returns
  the match at the leftmost matching position; ASCII case folding matches the
  Python behaviour on the ASCII pattern involved.
-/

set_option maxRecDepth 4000

namespace TicketTriage

/-- An order record from mock_data/orders.json.  The schema requires the
`order_id` key; `customer_name` may be absent (the renderer defaults it). -/
structure Order where
  order_id : Option String
  customer_name : Option String
deriving Repr, DecidableEq

/-- A keyword rule from mock_data/issues.json: (`keyword`, `issue_type`). -/
structure IssueRule where
  keyword : String
  issue_type : String
deriving Repr, DecidableEq

/-- A reply template from mock_data/replies.json: (`issue_type`, `template`). -/
structure ReplyTemplate where
  issue_type : String
  template : String
deriving Repr, DecidableEq

/-- The shared state record (`TriageState` TypedDict in main.py).
`messages` keeps the message contents (every appended message is a
`HumanMessage` holding the raw ticket text). -/
structure TriageState where
  messages : List String
  ticket_text : Option String
  order_id : Option String
  issue_type : Option String
  evidence : Option String
  recommendation : Option String
  order : Option Order
  reply_text : Option String
deriving Repr, DecidableEq

/-- Python truthiness of an optional string: `not x` is true when the field
is absent (`None`) or the empty string. -/
def strFalsy : Option String → Bool
  | none => true
  | some s => s == ""

/-- Python `x or d` for an optional string `x`: the default is taken when
`x` is absent or empty. -/
def pyOr (o : Option String) (d : String) : String :=
  match o with
  | none => d
  | some s => if s == "" then d else s

/-- Python `str.lower` (ASCII case folding, which covers the strings the
program compares). -/
def lowerStr (s : String) : String :=
  ⟨s.data.map Char.toLower⟩

/-- Python `needle in hay` on lists of characters: contiguous substring. -/
def isSubList (p : List Char) : List Char → Bool
  | [] => p.isEmpty
  | c :: rest => p.isPrefixOf (c :: rest) || isSubList p rest

/-- Fuel-driven worker for `replaceAll`; the fuel is an upper bound on the
length of the remaining text, so the `0` branch is only reached on `[]`. -/
def replaceAllF (p r : List Char) : Nat → List Char → List Char
  | 0, s => s
  | _ + 1, [] => []
  | fuel + 1, c :: s =>
    if !p.isEmpty && p.isPrefixOf (c :: s) then
      r ++ replaceAllF p r fuel ((c :: s).drop p.length)
    else
      c :: replaceAllF p r fuel s

/-- Python `s.replace(p, r)` for a non-empty pattern `p`: replace every
non-overlapping occurrence, scanning left to right; replaced text is not
rescanned. -/
def replaceAll (p r s : List Char) : List Char :=
  replaceAllF p r s.length s

/-- String-level wrapper for `replaceAll`. -/
def strReplace (s pat rep : String) : String :=
  ⟨replaceAll pat.data rep.data s.data⟩

/-- One attempted match of the case-insensitive pattern `ORD` + four digits
at the head of the text, returning the uppercased matched text
(`match.group(1).upper()`). -/
def matchOrdAt : List Char → Option (List Char)
  | c1 :: c2 :: c3 :: d1 :: d2 :: d3 :: d4 :: _ =>
    if c1.toLower == 'o' && c2.toLower == 'r' && c3.toLower == 'd'
        && d1.isDigit && d2.isDigit && d3.isDigit && d4.isDigit then
      some ([c1, c2, c3, d1, d2, d3, d4].map Char.toUpper)
    else
      none
  | _ => none

/-- `re.search(r"(ORD\d{4})", text, re.IGNORECASE)` followed by `.upper()`:
the match at the leftmost position where the pattern matches. -/
def scanOrd : List Char → Option String
  | [] => none
  | c :: rest =>
    match matchOrdAt (c :: rest) with
    | some m => some ⟨m⟩
    | none => scanOrd rest

/-- `ingest_node` (main.py lines 128-153): requires `ticket_text`; extracts
`order_id` from the text when the field is falsy; appends the ticket text to
the message history. -/
def ingest_node (state : TriageState) : Except String TriageState :=
  match state.ticket_text with
  | none => Except.error "ticket_text is required in state for ingest_node"
  | some ticket_text =>
    let order_id :=
      if strFalsy state.order_id then
        match scanOrd ticket_text.data with
        | some m => some m
        | none => state.order_id
      else state.order_id
    Except.ok { state with
      messages := state.messages ++ [ticket_text],
      order_id := order_id }

/-- The first-match loop of `_classify_issue_text` (main.py lines 77-81):
scan the ordered rules; the first whose lowered keyword is a substring of
the lowered text wins; otherwise "other". -/
def findIssueType (issues : List IssueRule) (text_lower : String) : String :=
  match issues with
  | [] => "other"
  | row :: rest =>
    if isSubList (lowerStr row.keyword).data text_lower.data then row.issue_type
    else findIssueType rest text_lower

/-- The `recommendation_map` dict literal of `_classify_issue_text`. -/
def recommendation_map : List (String × String) :=
  [("refund_request", "Issue a refund after verification."),
   ("damaged_item", "Send a replacement and consider partial refund."),
   ("late_delivery", "Apologize and offer discount or refund shipping."),
   ("missing_item", "Ship the missing item and confirm address.")]

/-- The result triple of `_classify_issue_text`. -/
structure Classification where
  issue_type : String
  evidence : String
  recommendation : String
deriving Repr, DecidableEq

/-- `_classify_issue_text` (main.py lines 72-97). -/
def _classify_issue_text (issues : List IssueRule) (ticket_text : String) :
    Classification :=
  let issue_type := findIssueType issues (lowerStr ticket_text)
  { issue_type := issue_type
    evidence := "Matched keyword for issue_type=" ++ issue_type
    recommendation :=
      (recommendation_map.lookup issue_type).getD "Review ticket manually." }

/-- `classify_issue_node` (main.py lines 156-167): classifies
`state.get("ticket_text") or ""` and sets the three classification fields. -/
def classify_issue_node (issues : List IssueRule) (state : TriageState) :
    TriageState :=
  let c := _classify_issue_text issues (pyOr state.ticket_text "")
  { state with
    issue_type := some c.issue_type
    evidence := some c.evidence
    recommendation := some c.recommendation }

/-- `fetch_order_node` (main.py lines 170-187): requires a truthy
`order_id`; looks the id up in the orders table by exact match
(`o["order_id"] == order_id`; every record of the table schema carries the
`order_id` key, embedded as the `Order.order_id` field). -/
def fetch_order_node (orders : List Order) (state : TriageState) :
    Except String TriageState :=
  match state.order_id with
  | none => Except.error "order_id is required before fetch_order_node"
  | some oid =>
    if oid == "" then
      Except.error "order_id is required before fetch_order_node"
    else
      match orders.find? (fun o => o.order_id == some oid) with
      | none => Except.error ("order not found for id=" ++ oid)
      | some o => Except.ok { state with order := some o }

/-- The generic fallback template of `_draft_reply` (main.py lines 108-112). -/
def fallback_template : String :=
  "Hi \x7b\x7bcustomer_name\x7d\x7d, thanks for reaching out about order \x7b\x7border_id\x7d\x7d. Our team is reviewing your request and will follow up shortly."

/-- The first-match template loop of `_draft_reply` (main.py lines 102-106). -/
def findTemplate : List ReplyTemplate → String → Option String
  | [], _ => none
  | row :: rest, issue_type =>
    if row.issue_type == issue_type then some row.template
    else findTemplate rest issue_type

/-- `_draft_reply` (main.py lines 100-121): select the template for the
issue type (falling back to the generic template), then substitute the two
placeholders by sequential literal replacement. -/
def _draft_reply (replies : List ReplyTemplate) (issue_type : String)
    (order : Order) : String :=
  let template := (findTemplate replies issue_type).getD fallback_template
  let customer_name := order.customer_name.getD "there"
  let order_id := order.order_id.getD ""
  strReplace (strReplace template "\x7b\x7bcustomer_name\x7d\x7d" customer_name)
    "\x7b\x7border_id\x7d\x7d" order_id

/-- `draft_reply_node` (main.py lines 190-206): requires `order` (an
`is None` check in the source); renders `reply_text` from
`state.get("issue_type") or "other"` and the order record. -/
def draft_reply_node (replies : List ReplyTemplate) (state : TriageState) :
    Except String TriageState :=
  let issue_type := pyOr state.issue_type "other"
  match state.order with
  | none => Except.error "order is required before draft_reply_node"
  | some order =>
    Except.ok { state with
      reply_text := some (_draft_reply replies issue_type order) }

/-- The compiled graph of `build_triage_graph` (main.py lines 213-233): the
strictly linear sequence ingest → classify_issue → fetch_order →
draft_reply, where a raised error aborts the run and propagates. -/
def runPipeline (issues : List IssueRule) (orders : List Order)
    (replies : List ReplyTemplate) (s : TriageState) :
    Except String TriageState :=
  match ingest_node s with
  | Except.error e => Except.error e
  | Except.ok s1 =>
    match fetch_order_node orders (classify_issue_node issues s1) with
    | Except.error e => Except.error e
    | Except.ok s3 => draft_reply_node replies s3

/-- The JSON body returned by `triage_invoke` on success. -/
structure TriageResponse where
  order_id : Option String
  issue_type : Option String
  order : Option Order
  reply_text : Option String
  evidence : Option String
  recommendation : Option String
deriving Repr, DecidableEq

/-- The error mapping of `triage_invoke` (main.py lines 274-281): a raised
`ValueError` message is turned into an HTTP status by substring tests. -/
def mapFailure (message : String) : Nat :=
  if isSubList "order_id is required".data message.data then 400
  else if isSubList "order not found".data message.data then 404
  else 500

/-- The initial state built by `triage_invoke` (main.py lines 261-270). -/
def initialState (ticket_text : String) (order_id : Option String) :
    TriageState :=
  { messages := []
    ticket_text := some ticket_text
    order_id := order_id
    issue_type := none
    evidence := none
    recommendation := none
    order := none
    reply_text := none }

/-- `triage_invoke` (main.py lines 252-294): build the initial state, run
the graph, map a failure to an HTTP status, and require `order` in the
final state (`if not final_state.get("order")`, a 500 safety net). -/
def triage_invoke (issues : List IssueRule) (orders : List Order)
    (replies : List ReplyTemplate) (ticket_text : String)
    (order_id : Option String) : Except Nat TriageResponse :=
  match runPipeline issues orders replies (initialState ticket_text order_id) with
  | Except.error e => Except.error (mapFailure e)
  | Except.ok final =>
    if final.order.isNone then Except.error 500
    else Except.ok
      { order_id := final.order_id
        issue_type := final.issue_type
        order := final.order
        reply_text := final.reply_text
        evidence := final.evidence
        recommendation := final.recommendation }

/-- Modelled from the spec: the orders table (mock_data/orders.json is not
under src/).  Spec section 8.6 fixes a record with id "ORD1001" whose
customer name is present; the repository test suite names that customer
"Ava Chen". -/
def ORDERS : List Order :=
  [{ order_id := some "ORD1001", customer_name := some "Ava Chen" }]

/-- Modelled from the spec: the ordered keyword table
(mock_data/issues.json is not under src/).  Spec section 3 fixes the closed
issue-type enumeration and section 8.6 ties the keyword "damaged" to
`damaged_item`. -/
def ISSUES : List IssueRule :=
  [{ keyword := "refund", issue_type := "refund_request" },
   { keyword := "damaged", issue_type := "damaged_item" },
   { keyword := "late", issue_type := "late_delivery" },
   { keyword := "missing", issue_type := "missing_item" }]

/-- Modelled from the spec: the reply-template table
(mock_data/replies.json is not under src/); one template per issue type
with the two placeholder tokens of spec section 3. -/
def REPLIES : List ReplyTemplate :=
  [{ issue_type := "damaged_item",
     template := "Hi \x7b\x7bcustomer_name\x7d\x7d, we are sorry about the damaged item in order \x7b\x7border_id\x7d\x7d. A replacement is on the way." }]

/-! ### Helper lemmas about `replaceAll` -/

theorem replaceAllF_zero (p r : List Char) (s : List Char) :
    replaceAllF p r 0 s = s := rfl

theorem replaceAllF_succ_nil (p r : List Char) (n : Nat) :
    replaceAllF p r (n + 1) [] = [] := rfl

theorem replaceAllF_succ_cons (p r : List Char) (n : Nat) (c : Char)
    (s : List Char) :
    replaceAllF p r (n + 1) (c :: s) =
      if !p.isEmpty && p.isPrefixOf (c :: s) then
        r ++ replaceAllF p r n ((c :: s).drop p.length)
      else
        c :: replaceAllF p r n s := rfl

theorem replaceAllF_fuel (p r : List Char) :
    ∀ fuel s, s.length ≤ fuel →
      replaceAllF p r fuel s = replaceAllF p r s.length s := by
  intro fuel
  induction fuel using Nat.strong_induction_on with
  | _ fuel ih =>
    intro s hs
    cases fuel with
    | zero =>
      cases s with
      | nil => rfl
      | cons c t => simp at hs
    | succ n =>
      cases s with
      | nil => rfl
      | cons c t =>
        have hlen : t.length ≤ n := by
          simpa using hs
        rw [List.length_cons, replaceAllF_succ_cons, replaceAllF_succ_cons]
        by_cases hc : (!p.isEmpty && p.isPrefixOf (c :: t)) = true
        · rw [if_pos hc, if_pos hc]
          congr 1
          have hp : 1 ≤ p.length := by
            cases p with
            | nil => simp at hc
            | cons a q => simp
          have hd : ((c :: t).drop p.length).length ≤ t.length := by
            rw [List.length_drop, List.length_cons]
            omega
          rw [ih n (by omega) _ (le_trans hd hlen),
            ih t.length (by omega) _ hd]
        · rw [if_neg hc, if_neg hc, ih n (by omega) t hlen]

theorem replaceAll_nil (p r : List Char) : replaceAll p r [] = [] := rfl

theorem replaceAll_cons_neg (p r : List Char) (c : Char) (s : List Char)
    (h : p.isPrefixOf (c :: s) = false) :
    replaceAll p r (c :: s) = c :: replaceAll p r s := by
  unfold replaceAll
  rw [List.length_cons, replaceAllF_succ_cons, h]
  simp

theorem replaceAll_cons_pos (p r : List Char) (c : Char) (s : List Char)
    (hp : p.isEmpty = false) (h : p.isPrefixOf (c :: s) = true) :
    replaceAll p r (c :: s) = r ++ replaceAll p r ((c :: s).drop p.length) := by
  unfold replaceAll
  rw [List.length_cons, replaceAllF_succ_cons, h, hp]
  have hp1 : 1 ≤ p.length := by
    cases p with
    | nil => simp at hp
    | cons a q => simp
  have hd : ((c :: s).drop p.length).length ≤ s.length := by
    rw [List.length_drop, List.length_cons]
    omega
  rw [replaceAllF_fuel p r s.length _ hd]
  simp

/-- Scanning a region that never contains the pattern head copies it
verbatim and continues after it. -/
theorem replaceAll_skip (a : Char) (p' r xs ys : List Char)
    (h : ∀ c ∈ xs, (a == c) = false) :
    replaceAll (a :: p') r (xs ++ ys) = xs ++ replaceAll (a :: p') r ys := by
  induction xs with
  | nil => simp
  | cons c t ihx =>
    have hne : ((a :: p').isPrefixOf (c :: (t ++ ys))) = false := by
      show ((a == c) && (p'.isPrefixOf (t ++ ys))) = false
      rw [h c (by simp)]
      simp
    rw [List.cons_append, replaceAll_cons_neg _ _ _ _ hne,
      ihx (fun d hd => h d (by simp [hd]))]
    rfl

theorem replaceAll_head (p r : List Char) (c : Char) (s : List Char)
    (h : p.isPrefixOf (c :: s) = false) :
    (replaceAll p r (c :: s)).head? = some c := by
  rw [replaceAll_cons_neg _ _ _ _ h]
  rfl

/-! ### Helper lemmas about `scanOrd` -/

theorem scanOrd_of_no_match (l : List Char)
    (h : ∀ i, matchOrdAt (l.drop i) = none) : scanOrd l = none := by
  induction l with
  | nil => rfl
  | cons c rest ih =>
    have h0 : matchOrdAt (c :: rest) = none := by
      have := h 0
      simpa using this
    rw [scanOrd, h0]
    exact ih (fun i => by
      have := h (i + 1)
      simpa using this)

theorem scanOrd_of_first_match (l : List Char) :
    ∀ (i : Nat) (m : List Char),
      (∀ j, j < i → matchOrdAt (l.drop j) = none) →
      matchOrdAt (l.drop i) = some m → scanOrd l = some ⟨m⟩ := by
  induction l with
  | nil =>
    intro i m _ hm
    rw [List.drop_nil] at hm
    exact absurd hm (by simp [matchOrdAt])
  | cons c rest ih =>
    intro i m hj hm
    cases i with
    | zero =>
      rw [List.drop_zero] at hm
      rw [scanOrd, hm]
    | succ i =>
      have h0 : matchOrdAt (c :: rest) = none := by
        have := hj 0 (by omega)
        simpa using this
      rw [scanOrd, h0]
      exact ih i m
        (fun j hji => by
          have := hj (j + 1) (by omega)
          simpa using this)
        (by simpa using hm)

theorem matchOrdAt_eq_upper_take (l : List Char) (m : List Char)
    (h : matchOrdAt l = some m) : m = (l.take 7).map Char.toUpper := by
  match l with
  | [] => exact absurd h (by simp [matchOrdAt])
  | [c1] => exact absurd h (by simp [matchOrdAt])
  | [c1, c2] => exact absurd h (by simp [matchOrdAt])
  | [c1, c2, c3] => exact absurd h (by simp [matchOrdAt])
  | [c1, c2, c3, d1] => exact absurd h (by simp [matchOrdAt])
  | [c1, c2, c3, d1, d2] => exact absurd h (by simp [matchOrdAt])
  | [c1, c2, c3, d1, d2, d3] => exact absurd h (by simp [matchOrdAt])
  | c1 :: c2 :: c3 :: d1 :: d2 :: d3 :: d4 :: rest =>
    rw [matchOrdAt] at h
    by_cases hc : (c1.toLower == 'o' && c2.toLower == 'r' && c3.toLower == 'd'
        && d1.isDigit && d2.isDigit && d3.isDigit && d4.isDigit) = true
    · rw [if_pos hc] at h
      have hm : m = [c1, c2, c3, d1, d2, d3, d4].map Char.toUpper := by
        exact (Option.some.injEq _ _ ▸ h).symm
      simp [hm, List.take]
    · rw [if_neg hc] at h
      exact absurd h (by simp)

/-! ### First-match characterizations of the table loops -/

theorem findIssueType_eq_find (issues : List IssueRule) (tl : String) :
    findIssueType issues tl =
      (match issues.find?
          (fun r => isSubList (lowerStr r.keyword).data tl.data) with
       | some r => r.issue_type
       | none => "other") := by
  induction issues with
  | nil => rfl
  | cons row rest ih =>
    rw [findIssueType]
    by_cases hr : isSubList (lowerStr row.keyword).data tl.data = true
    · rw [if_pos hr]
      have hf : List.find?
          (fun r => isSubList (lowerStr r.keyword).data tl.data)
          (row :: rest) = some row := by
        simp [List.find?, hr]
      rw [hf]
    · have hr' : isSubList (lowerStr row.keyword).data tl.data = false := by
        simpa using hr
      rw [if_neg hr, ih]
      have hf : List.find?
          (fun r => isSubList (lowerStr r.keyword).data tl.data)
          (row :: rest) =
          List.find?
            (fun r => isSubList (lowerStr r.keyword).data tl.data) rest := by
        simp [List.find?, hr']
      rw [hf]

theorem findIssueType_append (pre : List IssueRule) (r : IssueRule)
    (rest : List IssueRule) (tl : String)
    (hpre : ∀ q ∈ pre, isSubList (lowerStr q.keyword).data tl.data = false)
    (hr : isSubList (lowerStr r.keyword).data tl.data = true) :
    findIssueType (pre ++ r :: rest) tl = r.issue_type := by
  induction pre with
  | nil =>
    rw [List.nil_append, findIssueType, if_pos hr]
  | cons q pre' ih =>
    rw [List.cons_append, findIssueType,
      if_neg (by rw [hpre q (by simp)]; simp),
      ih (fun q' hq' => hpre q' (by simp [hq']))]

theorem findTemplate_eq_find (replies : List ReplyTemplate) (ity : String) :
    findTemplate replies ity =
      (replies.find? (fun row => row.issue_type == ity)).map
        (fun row => row.template) := by
  induction replies with
  | nil => rfl
  | cons row rest ih =>
    rw [findTemplate]
    by_cases hr : (row.issue_type == ity) = true
    · rw [if_pos hr]
      have hf : List.find? (fun row => row.issue_type == ity) (row :: rest) =
          some row := by
        simp [List.find?, hr]
      rw [hf]
      rfl
    · have hr' : (row.issue_type == ity) = false := by
        simpa using hr
      rw [if_neg hr, ih]
      have hf : List.find? (fun row => row.issue_type == ity) (row :: rest) =
          List.find? (fun row => row.issue_type == ity) rest := by
        simp [List.find?, hr']
      rw [hf]

/-! ### Rendering the generic fallback template -/

theorem isPrefixOf_cons_of_ne (a b : Char) (p s : List Char)
    (h : (a == b) = false) : (a :: p).isPrefixOf (b :: s) = false := by
  show ((a == b) && p.isPrefixOf s) = false
  rw [h]
  simp

/-- Substituting the customer name into the fallback template: the scan of
the concrete template text reduces definitionally even with a symbolic
replacement. -/
theorem render_fallback_step1 (name : String) :
    strReplace fallback_template "\x7b\x7bcustomer_name\x7d\x7d" name =
      "Hi " ++ (name ++
        ", thanks for reaching out about order \x7b\x7border_id\x7d\x7d. Our team is reviewing your request and will follow up shortly.") :=
  rfl

/-- Rendering the fallback template with a brace-free customer name yields
exactly the template text with both placeholders substituted. -/
theorem render_fallback (name oid : String)
    (hname : ∀ c ∈ name.data, c ≠ '\x7b') :
    strReplace
        (strReplace fallback_template "\x7b\x7bcustomer_name\x7d\x7d" name)
        "\x7b\x7border_id\x7d\x7d" oid =
      "Hi " ++ (name ++ (", thanks for reaching out about order " ++
        (oid ++
          ". Our team is reviewing your request and will follow up shortly."))) := by
  rw [render_fallback_step1]
  have hx : ∀ c ∈ ('H' :: 'i' :: ' ' :: name.data), ('\x7b' == c) = false := by
    intro c hc
    simp only [List.mem_cons] at hc
    rcases hc with rfl | rfl | rfl | hmem
    · decide
    · decide
    · decide
    · exact beq_eq_false_iff_ne.mpr fun hq => hname c hmem hq.symm
  show String.mk (replaceAll ('\x7b' :: "\x7border_id\x7d\x7d".data) oid.data
      (('H' :: 'i' :: ' ' :: name.data) ++
        ", thanks for reaching out about order \x7b\x7border_id\x7d\x7d. Our team is reviewing your request and will follow up shortly.".data)) = _
  rw [replaceAll_skip '\x7b' "\x7border_id\x7d\x7d".data oid.data
    ('H' :: 'i' :: ' ' :: name.data)
    ", thanks for reaching out about order \x7b\x7border_id\x7d\x7d. Our team is reviewing your request and will follow up shortly.".data hx]
  rfl

/-- Whatever the substituted values, the rendered fallback is non-empty. -/
theorem render_fallback_ne_empty (name oid : String) :
    strReplace
        (strReplace fallback_template "\x7b\x7bcustomer_name\x7d\x7d" name)
        "\x7b\x7border_id\x7d\x7d" oid ≠ "" := by
  rw [render_fallback_step1]
  intro hcontra
  have hne : ('\x7b' :: "\x7border_id\x7d\x7d".data).isPrefixOf
      ('H' :: ('i' :: ' ' :: (name.data ++
        ", thanks for reaching out about order \x7b\x7border_id\x7d\x7d. Our team is reviewing your request and will follow up shortly.".data))) = false :=
    isPrefixOf_cons_of_ne _ _ _ _ (by decide)
  have hdata : replaceAll ('\x7b' :: "\x7border_id\x7d\x7d".data) oid.data
      ('H' :: ('i' :: ' ' :: (name.data ++
        ", thanks for reaching out about order \x7b\x7border_id\x7d\x7d. Our team is reviewing your request and will follow up shortly.".data))) =
      [] := congrArg String.data hcontra
  rw [replaceAll_cons_neg _ _ _ _ hne] at hdata
  exact absurd hdata (by simp)

/-! ### The two fetch errors are distinct strings -/

theorem notFound_ne_missing (oid : String) :
    ("order not found for id=" ++ oid) ≠
      "order_id is required before fetch_order_node" := by
  intro h
  have hdata : ∀ a b : String, (a ++ b).data = a.data ++ b.data :=
    fun a b => rfl
  have h5 : (("order not found for id=" ++ oid).data.get? 5) = some '_' := by
    rw [h]
    rfl
  have h5' : (("order not found for id=" ++ oid).data.get? 5) = some ' ' := by
    rw [hdata]
    rfl
  rw [h5'] at h5
  exact absurd (Option.some.injEq _ _ ▸ h5) (by decide)

/-! ### Claims -/

/-- C1: every stage returns a state in which every field other than the
fields it owns (ingest: order_id and messages; classify: issue_type,
evidence, recommendation; fetch_order: order; draft_reply: reply_text)
equals the corresponding input field; in particular ticket_text is never
changed by any stage. -/
theorem claim_C1_stage_frame :
    (∀ s s', ingest_node s = Except.ok s' →
      s'.ticket_text = s.ticket_text ∧ s'.issue_type = s.issue_type ∧
      s'.evidence = s.evidence ∧ s'.recommendation = s.recommendation ∧
      s'.order = s.order ∧ s'.reply_text = s.reply_text)
  ∧ (∀ issues s,
      (classify_issue_node issues s).messages = s.messages ∧
      (classify_issue_node issues s).ticket_text = s.ticket_text ∧
      (classify_issue_node issues s).order_id = s.order_id ∧
      (classify_issue_node issues s).order = s.order ∧
      (classify_issue_node issues s).reply_text = s.reply_text)
  ∧ (∀ orders s s', fetch_order_node orders s = Except.ok s' →
      s'.messages = s.messages ∧ s'.ticket_text = s.ticket_text ∧
      s'.order_id = s.order_id ∧ s'.issue_type = s.issue_type ∧
      s'.evidence = s.evidence ∧ s'.recommendation = s.recommendation ∧
      s'.reply_text = s.reply_text)
  ∧ (∀ replies s s', draft_reply_node replies s = Except.ok s' →
      s'.messages = s.messages ∧ s'.ticket_text = s.ticket_text ∧
      s'.order_id = s.order_id ∧ s'.issue_type = s.issue_type ∧
      s'.evidence = s.evidence ∧ s'.recommendation = s.recommendation ∧
      s'.order = s.order) := by
  refine ⟨?_, ?_, ?_, ?_⟩
  · intro s s' h
    cases ht : s.ticket_text with
    | none => simp [ingest_node, ht] at h
    | some t =>
      simp only [ingest_node, ht] at h
      injection h with h2
      subst h2
      exact ⟨rfl, rfl, rfl, rfl, rfl, rfl⟩
  · intro issues s
    exact ⟨rfl, rfl, rfl, rfl, rfl⟩
  · intro orders s s' h
    cases ho : s.order_id with
    | none => simp [fetch_order_node, ho] at h
    | some oid =>
      simp only [fetch_order_node, ho] at h
      by_cases he : (oid == "") = true
      · rw [if_pos he] at h
        exact absurd h (by simp)
      · rw [if_neg he] at h
        cases hf : orders.find? (fun o => o.order_id == some oid) with
        | none =>
          rw [hf] at h
          exact absurd h (by simp)
        | some o =>
          rw [hf] at h
          injection h with h2
          subst h2
          exact ⟨rfl, rfl, rfl, rfl, rfl, rfl, rfl⟩
  · intro replies s s' h
    cases ho : s.order with
    | none => simp [draft_reply_node, ho] at h
    | some o =>
      simp only [draft_reply_node, ho] at h
      injection h with h2
      subst h2
      exact ⟨rfl, rfl, rfl, rfl, rfl, rfl, rfl⟩

/-- C1 witness: the ingest frame condition at a concrete state. -/
theorem claim_C1_stage_frame_witness :
    ingest_node (initialState "damaged ORD1001" none) =
      Except.ok { initialState "damaged ORD1001" none with
        messages := ["damaged ORD1001"], order_id := some "ORD1001" }
  ∧ ({ initialState "damaged ORD1001" none with
        messages := ["damaged ORD1001"],
        order_id := some "ORD1001" } : TriageState).ticket_text =
      (initialState "damaged ORD1001" none).ticket_text := by
  constructor
  · rfl
  · exact (claim_C1_stage_frame.1 (initialState "damaged ORD1001" none) _
      (by rfl)).1

/-- C2 counterexample: an initial state on which fetch_order_node fails
(missing order_id), yet running the pipeline from that same initial state
extracts the id during ingest, reaches draft_reply and sets reply_text. -/
theorem claim_C2_counterexample :
    fetch_order_node ORDERS
        (initialState
          "I received a damaged item in my order ORD1001 and need help." none) =
      Except.error "order_id is required before fetch_order_node"
  ∧ (runPipeline ISSUES ORDERS REPLIES
        (initialState
          "I received a damaged item in my order ORD1001 and need help."
          none)).map (fun s => s.reply_text.isSome) = Except.ok true :=
  ⟨rfl, rfl⟩

/-- C2 (amended): whenever fetch_order fails on the state it actually
receives (the initial state transformed by ingest and classify), the
pipeline halts with exactly that failure: draft_reply never executes and no
state (hence no reply_text) is ever returned. -/
theorem claim_C2_halt_at_fetch (issues : List IssueRule)
    (orders : List Order) (replies : List ReplyTemplate)
    (s s1 : TriageState) (e : String)
    (h1 : ingest_node s = Except.ok s1)
    (h2 : fetch_order_node orders (classify_issue_node issues s1) =
      Except.error e) :
    runPipeline issues orders replies s = Except.error e ∧
    ∀ s', runPipeline issues orders replies s ≠ Except.ok s' := by
  have hrun : runPipeline issues orders replies s = Except.error e := by
    simp only [runPipeline, h1, h2]
  refine ⟨hrun, ?_⟩
  intro s' hcontra
  rw [hrun] at hcontra
  exact absurd hcontra (by simp)

/-- C2 witness: a run whose fetch stage fails halts with that failure. -/
theorem claim_C2_halt_at_fetch_witness :
    runPipeline ISSUES ORDERS REPLIES (initialState "hello there" none) =
      Except.error "order_id is required before fetch_order_node" :=
  (claim_C2_halt_at_fetch ISSUES ORDERS REPLIES
    (initialState "hello there" none)
    { initialState "hello there" none with messages := ["hello there"] }
    "order_id is required before fetch_order_node" (by rfl) (by rfl)).1

/-- C3: Classify adopts the issue type of the first rule in the ordered
table whose lowered keyword is a substring of the lowered ticket text, and
"other" when no rule matches; of two matching rules the earlier wins. -/
theorem claim_C3_first_match (issues : List IssueRule) (text : String) :
    ((_classify_issue_text issues text).issue_type =
      (match issues.find?
          (fun r => isSubList (lowerStr r.keyword).data (lowerStr text).data)
        with
       | some r => r.issue_type
       | none => "other"))
  ∧ (∀ pre r rest, issues = pre ++ r :: rest →
      (∀ q ∈ pre,
        isSubList (lowerStr q.keyword).data (lowerStr text).data = false) →
      isSubList (lowerStr r.keyword).data (lowerStr text).data = true →
      (_classify_issue_text issues text).issue_type = r.issue_type) := by
  constructor
  · exact findIssueType_eq_find issues (lowerStr text)
  · intro pre r rest hsplit hpre hr
    show findIssueType issues (lowerStr text) = r.issue_type
    rw [hsplit]
    exact findIssueType_append pre r rest (lowerStr text) hpre hr

/-- C3 witness: "It arrived damaged and late" matches both the damaged and
the late rule; the earlier (damaged) rule of the modelled table wins. -/
theorem claim_C3_first_match_witness :
    isSubList (lowerStr "refund").data
      (lowerStr "It arrived damaged and late").data = false
  ∧ isSubList (lowerStr "damaged").data
      (lowerStr "It arrived damaged and late").data = true
  ∧ isSubList (lowerStr "late").data
      (lowerStr "It arrived damaged and late").data = true
  ∧ (_classify_issue_text ISSUES "It arrived damaged and late").issue_type =
      "damaged_item" := by
  refine ⟨by decide, by decide, by decide, ?_⟩
  exact (claim_C3_first_match ISSUES "It arrived damaged and late").2
    [{ keyword := "refund", issue_type := "refund_request" }]
    { keyword := "damaged", issue_type := "damaged_item" }
    [{ keyword := "late", issue_type := "late_delivery" },
     { keyword := "missing", issue_type := "missing_item" }]
    (by rfl)
    (by
      intro q hq
      simp only [List.mem_singleton] at hq
      subst hq
      decide)
    (by decide)

/-- C4 counterexample: the claim's no-extraction clause fails for a
supplied empty order_id: the field is present (supplied as ""), yet
extraction still occurs, because the source tests Python truthiness rather
than presence. -/
theorem claim_C4_counterexample :
    (initialState "Please check ORD1001" (some "")).order_id = some ""
  ∧ ingest_node (initialState "Please check ORD1001" (some "")) =
      Except.ok { initialState "Please check ORD1001" (some "") with
        messages := ["Please check ORD1001"], order_id := some "ORD1001" } :=
  ⟨rfl, rfl⟩

/-- C4 (amended): with ticket_text present and order_id absent, ingest sets
order_id to the uppercased leftmost occurrence of the case-insensitive
pattern ORD + four digits, and leaves it absent when there is none; a
supplied non-empty order_id suppresses extraction (a supplied empty string
is treated as absent by the truthiness test, so extraction still runs). -/
theorem claim_C4_order_id_extraction (s : TriageState) (t : String)
    (ht : s.ticket_text = some t) :
    (s.order_id = none →
      ((∀ i, matchOrdAt (t.data.drop i) = none) →
        ingest_node s = Except.ok { s with messages := s.messages ++ [t] })
    ∧ (∀ i m, (∀ j, j < i → matchOrdAt (t.data.drop j) = none) →
        matchOrdAt (t.data.drop i) = some m →
        ingest_node s = Except.ok { s with
          messages := s.messages ++ [t],
          order_id := some ⟨((t.data.drop i).take 7).map Char.toUpper⟩ }))
  ∧ (∀ v, s.order_id = some v → v ≠ "" →
      ingest_node s = Except.ok { s with messages := s.messages ++ [t] }) := by
  obtain ⟨ms, tt, oid, it, ev, rec, od, rt⟩ := s
  have ht' : tt = some t := ht
  subst ht'
  constructor
  · intro ho
    have ho' : oid = none := ho
    subst ho'
    constructor
    · intro hnone
      have hscan := scanOrd_of_no_match t.data hnone
      simp [ingest_node, strFalsy, hscan]
    · intro i m hj hm
      have hscan := scanOrd_of_first_match t.data i m hj hm
      rw [matchOrdAt_eq_upper_take (t.data.drop i) m hm] at hscan
      simp [ingest_node, strFalsy, hscan]
  · intro v hv hvne
    have hv' : oid = some v := hv
    subst hv'
    have hb : (v == "") = false := beq_eq_false_iff_ne.mpr hvne
    simp [ingest_node, strFalsy, hb]

/-- C4 witness: the extraction clause at a concrete lowercase ticket. -/
theorem claim_C4_order_id_extraction_witness :
    (initialState "ord1234 broken" none).order_id = none
  ∧ matchOrdAt ("ord1234 broken".data.drop 0) = some "ORD1234".data
  ∧ ingest_node (initialState "ord1234 broken" none) =
      Except.ok { initialState "ord1234 broken" none with
        messages := ["ord1234 broken"],
        order_id :=
          some ⟨(("ord1234 broken".data.drop 0).take 7).map Char.toUpper⟩ } := by
  refine ⟨rfl, by decide, ?_⟩
  exact ((claim_C4_order_id_extraction (initialState "ord1234 broken" none)
      "ord1234 broken" rfl).1 rfl).2 0 "ORD1234".data
    (fun j hj => absurd hj (Nat.not_lt_zero j)) (by decide)

/-- C5 counterexample: with order_id present but empty, fetch_order raises
the MissingField error even though the field is not absent, refuting the
"if and only if absent" reading. -/
theorem claim_C5_counterexample :
    (initialState "help" (some "")).order_id = some ""
  ∧ fetch_order_node ORDERS (initialState "help" (some "")) =
      Except.error "order_id is required before fetch_order_node" :=
  ⟨rfl, rfl⟩

/-- C5 (amended): fetch_order raises MissingField(order_id) iff order_id
is falsy (absent or the empty string); with a non-empty order_id it raises
NotFound when no record has that exact id (returning no state, so order is
never set), and returns the input state extended with the found record
otherwise. -/
theorem claim_C5_fetch_order_errors (orders : List Order) (s : TriageState) :
    (fetch_order_node orders s =
        Except.error "order_id is required before fetch_order_node" ↔
      strFalsy s.order_id = true)
  ∧ (∀ oid, s.order_id = some oid → oid ≠ "" →
      (orders.find? (fun o => o.order_id == some oid) = none →
        fetch_order_node orders s =
          Except.error ("order not found for id=" ++ oid))
    ∧ (∀ o, orders.find? (fun o => o.order_id == some oid) = some o →
        fetch_order_node orders s = Except.ok { s with order := some o })) := by
  constructor
  · cases ho : s.order_id with
    | none => simp [fetch_order_node, ho, strFalsy]
    | some oid =>
      by_cases he : oid = ""
      · subst he
        simp [fetch_order_node, ho, strFalsy]
      · have hb : (oid == "") = false := beq_eq_false_iff_ne.mpr he
        have hrhs : strFalsy (some oid) = false := by
          simpa [strFalsy] using hb
        cases hf : orders.find? (fun o => o.order_id == some oid) with
        | none =>
          have hfetch : fetch_order_node orders s =
              Except.error ("order not found for id=" ++ oid) := by
            simp [fetch_order_node, ho, hb, hf]
          rw [hfetch, hrhs]
          constructor
          · intro hcontra
            injection hcontra with hmsg
            exact absurd hmsg (notFound_ne_missing oid)
          · intro hcontra
            exact absurd hcontra (by simp)
        | some o =>
          have hfetch : fetch_order_node orders s =
              Except.ok { s with order := some o } := by
            simp [fetch_order_node, ho, hb, hf]
          rw [hfetch, hrhs]
          constructor
          · intro hcontra
            exact absurd hcontra (by simp)
          · intro hcontra
            exact absurd hcontra (by simp)
  · intro oid hoid hne
    have hb : (oid == "") = false := beq_eq_false_iff_ne.mpr hne
    constructor
    · intro hf
      simp [fetch_order_node, hoid, hb, hf]
    · intro o hf
      simp [fetch_order_node, hoid, hb, hf]

/-- C5 witness: a well-formed but unknown id yields the NotFound error. -/
theorem claim_C5_fetch_order_errors_witness :
    (initialState "x" (some "ORD9999")).order_id = some "ORD9999"
  ∧ ORDERS.find? (fun o => o.order_id == some "ORD9999") = none
  ∧ fetch_order_node ORDERS (initialState "x" (some "ORD9999")) =
      Except.error ("order not found for id=" ++ "ORD9999") := by
  refine ⟨rfl, by decide, ?_⟩
  exact ((claim_C5_fetch_order_errors ORDERS
    (initialState "x" (some "ORD9999"))).2 "ORD9999" rfl
    (by decide)).1 (by decide)

/-- C6: with an order present, draft_reply never fails and sets reply_text
to the rendering of the template selected for the issue type (the first
matching table row, else the fixed generic fallback), substituting every
occurrence of the two placeholders by literal replacement with the order's
customer name (default "there") and id (default ""); in the fallback case
the reply is non-empty, and with a brace-free customer name it is exactly
the fallback text with both placeholders substituted. -/
theorem claim_C6_draft_reply (replies : List ReplyTemplate) (s : TriageState)
    (o : Order) (ho : s.order = some o) :
    (draft_reply_node replies s = Except.ok { s with
      reply_text := some (_draft_reply replies (pyOr s.issue_type "other") o) })
  ∧ (∀ ity, findTemplate replies ity =
      (replies.find? (fun row => row.issue_type == ity)).map
        (fun row => row.template))
  ∧ (∀ ity, findTemplate replies ity = none → _draft_reply replies ity o ≠ "")
  ∧ (∀ ity name oid, findTemplate replies ity = none →
      o.customer_name = some name → o.order_id = some oid →
      (∀ c ∈ name.data, c ≠ '\x7b') →
      _draft_reply replies ity o =
        "Hi " ++ (name ++ (", thanks for reaching out about order " ++
          (oid ++
            ". Our team is reviewing your request and will follow up shortly."))))
  ∧ (o.customer_name = none → o.order_id = none →
      ∀ ity, findTemplate replies ity = none →
      _draft_reply replies ity o =
        "Hi there, thanks for reaching out about order . Our team is reviewing your request and will follow up shortly.") := by
  refine ⟨?_, ?_, ?_, ?_, ?_⟩
  · simp only [draft_reply_node, ho]
  · intro ity
    exact findTemplate_eq_find replies ity
  · intro ity hf
    simp only [_draft_reply, hf, Option.getD_none]
    exact render_fallback_ne_empty _ _
  · intro ity name oid hf hcn hoid hname
    simp only [_draft_reply, hf, Option.getD_none, hcn, hoid, Option.getD_some]
    exact render_fallback name oid hname
  · intro hcn hoid ity hf
    simp only [_draft_reply, hf, hcn, hoid, Option.getD_none]
    rfl

/-- C6 witness: rendering at a concrete order record with an empty
template table (fallback case). -/
theorem claim_C6_draft_reply_witness :
    draft_reply_node []
        ⟨[], some "x", none, none, none, none,
          some ⟨some "ORD1001", some "Ava Chen"⟩, none⟩ =
      Except.ok
        ⟨[], some "x", none, none, none, none,
          some ⟨some "ORD1001", some "Ava Chen"⟩,
          some (_draft_reply [] (pyOr none "other")
            ⟨some "ORD1001", some "Ava Chen"⟩)⟩
  ∧ _draft_reply [] "other" ⟨some "ORD1001", some "Ava Chen"⟩ =
      "Hi Ava Chen, thanks for reaching out about order ORD1001. Our team is reviewing your request and will follow up shortly." := by
  constructor
  · exact (claim_C6_draft_reply []
      ⟨[], some "x", none, none, none, none,
        some ⟨some "ORD1001", some "Ava Chen"⟩, none⟩
      ⟨some "ORD1001", some "Ava Chen"⟩ rfl).1
  · rfl

/-- C7 counterexample: triage_invoke's failure mapping sends the Ingest
MissingField(ticket_text) message to HTTP 500, not to a 4xx status. -/
theorem claim_C7_counterexample :
    ¬ (400 ≤ mapFailure "ticket_text is required in state for ingest_node" ∧
      mapFailure "ticket_text is required in state for ingest_node" < 500) := by
  decide

/-- C7 (amended): the Ingest MissingField(ticket_text) failure carries a
message matching neither substring test of triage_invoke's mapping, so it
is mapped to the server-error status 500 (a request lacking ticket_text is
instead rejected by body validation before the pipeline runs). -/
theorem claim_C7_ticket_text_maps_to_500 :
    ingest_node ⟨[], none, none, none, none, none, none, none⟩ =
      Except.error "ticket_text is required in state for ingest_node"
  ∧ mapFailure "ticket_text is required in state for ingest_node" = 500 := by
  exact ⟨rfl, by decide⟩

/-- C8 counterexample: the fallback recommendation string produced for
"other" is the source literal "Review ticket manually.", not the claimed
"review manually". -/
theorem claim_C8_counterexample :
    (_classify_issue_text [] "anything").issue_type = "other"
  ∧ (_classify_issue_text [] "anything").recommendation =
      "Review ticket manually."
  ∧ "Review ticket manually." ≠ "review manually" := by
  refine ⟨rfl, rfl, by decide⟩

/-- C8 (amended): the recommendation is the fixed fallback string
"Review ticket manually." for "other" and for any issue type absent from
the lookup, and the looked-up string for issue types present in it. -/
theorem claim_C8_fallback_recommendation (issues : List IssueRule)
    (text : String) :
    (recommendation_map.lookup (_classify_issue_text issues text).issue_type =
        none →
      (_classify_issue_text issues text).recommendation =
        "Review ticket manually.")
  ∧ (∀ v, recommendation_map.lookup
        (_classify_issue_text issues text).issue_type = some v →
      (_classify_issue_text issues text).recommendation = v)
  ∧ recommendation_map.lookup "other" = none := by
  refine ⟨?_, ?_, by decide⟩
  · intro h
    show (recommendation_map.lookup
        (_classify_issue_text issues text).issue_type).getD
        "Review ticket manually." = "Review ticket manually."
    rw [h]
    rfl
  · intro v h
    show (recommendation_map.lookup
        (_classify_issue_text issues text).issue_type).getD
        "Review ticket manually." = v
    rw [h]
    rfl

/-- C8 witness: the fallback branch at a concrete unmatched text. -/
theorem claim_C8_fallback_recommendation_witness :
    recommendation_map.lookup (_classify_issue_text [] "x").issue_type = none
  ∧ (_classify_issue_text [] "x").recommendation =
      "Review ticket manually." := by
  refine ⟨by decide, ?_⟩
  exact (claim_C8_fallback_recommendation [] "x").1 (by decide)

/-- C9: classify is idempotent (a second application yields the same
issue_type, evidence and recommendation) and deterministic (states
agreeing on ticket_text classify identically). -/
theorem claim_C9_classify_idempotent_deterministic :
    (∀ issues s,
      (classify_issue_node issues (classify_issue_node issues s)).issue_type =
        (classify_issue_node issues s).issue_type ∧
      (classify_issue_node issues (classify_issue_node issues s)).evidence =
        (classify_issue_node issues s).evidence ∧
      (classify_issue_node issues
          (classify_issue_node issues s)).recommendation =
        (classify_issue_node issues s).recommendation)
  ∧ (∀ issues s t, s.ticket_text = t.ticket_text →
      (classify_issue_node issues s).issue_type =
        (classify_issue_node issues t).issue_type ∧
      (classify_issue_node issues s).evidence =
        (classify_issue_node issues t).evidence ∧
      (classify_issue_node issues s).recommendation =
        (classify_issue_node issues t).recommendation) := by
  constructor
  · intro issues s
    exact ⟨rfl, rfl, rfl⟩
  · intro issues s t h
    refine ⟨?_, ?_, ?_⟩
    · show some (_classify_issue_text issues
          (pyOr s.ticket_text "")).issue_type =
        some (_classify_issue_text issues (pyOr t.ticket_text "")).issue_type
      rw [h]
    · show some (_classify_issue_text issues
          (pyOr s.ticket_text "")).evidence =
        some (_classify_issue_text issues (pyOr t.ticket_text "")).evidence
      rw [h]
    · show some (_classify_issue_text issues
          (pyOr s.ticket_text "")).recommendation =
        some (_classify_issue_text issues
          (pyOr t.ticket_text "")).recommendation
      rw [h]

/-- C9 witness: two distinct states with the same ticket_text classify to
the same issue type. -/
theorem claim_C9_classify_idempotent_deterministic_witness :
    (initialState "late delivery" none).ticket_text =
      ({ initialState "late delivery" (some "ORD1001") with
        messages := ["x"] } : TriageState).ticket_text
  ∧ (classify_issue_node ISSUES (initialState "late delivery" none)).issue_type
      =
      (classify_issue_node ISSUES
        { initialState "late delivery" (some "ORD1001") with
          messages := ["x"] }).issue_type := by
  refine ⟨rfl, ?_⟩
  exact (claim_C9_classify_idempotent_deterministic.2 ISSUES
    (initialState "late delivery" none)
    { initialState "late delivery" (some "ORD1001") with messages := ["x"] }
    rfl).1

/-- C10: a present-but-empty order_id is treated as absent by the
truthiness check: fetch_order raises the MissingField(order_id) error, an
error distinct from every NotFound message. -/
theorem claim_C10_empty_order_id (orders : List Order) (s : TriageState)
    (h : s.order_id = some "") :
    fetch_order_node orders s =
      Except.error "order_id is required before fetch_order_node"
  ∧ ∀ oid : String, fetch_order_node orders s ≠
      Except.error ("order not found for id=" ++ oid) := by
  have hf : fetch_order_node orders s =
      Except.error "order_id is required before fetch_order_node" := by
    simp [fetch_order_node, h]
  refine ⟨hf, ?_⟩
  intro oid hcontra
  rw [hf] at hcontra
  injection hcontra with hmsg
  exact notFound_ne_missing oid hmsg.symm

/-- C10 witness: the empty-string order_id at a concrete state. -/
theorem claim_C10_empty_order_id_witness :
    (initialState "need refund" (some "")).order_id = some ""
  ∧ fetch_order_node [] (initialState "need refund" (some "")) =
      Except.error "order_id is required before fetch_order_node" := by
  refine ⟨rfl, ?_⟩
  exact (claim_C10_empty_order_id [] (initialState "need refund" (some ""))
    rfl).1

end TicketTriage
